import Mathlib

/-
  Verification development for the TrueLink API repository.

  This file shallowly embeds the parts of the code relevant to the frozen
  claims: the generic link-discovery walker (`extract_direct_links` in
  utils.py), the timeout clamp and orchestrator (`validate_timeout`,
  `resolve_single` in utils.py), the batch endpoint (endpoints/batch.py),
  the Terabox multi-source fallback (endpoints/terabox.py), and the
  universal bypass dispatch plus the uptobox waiting protocol
  (endpoints/linkvertise.py).

  Python values appearing in JSON-ish payloads are modelled by `PyVal`;
  Python dicts are association lists (Python dicts preserve insertion
  order and have unique keys).  Network effects are modelled by passing
  the upstream responses (or a fetch oracle) as explicit arguments.
-/

/-- Boolean test: the first char list is a leading segment of the second
(model of Python `str.startswith` on code points). -/
def seqStartB : List Char → List Char → Bool
  | [], _ => true
  | _ :: _, [] => false
  | a :: as, b :: bs => a == b && seqStartB as bs

/-- Boolean test: the first char list occurs contiguously somewhere in the
second (model of Python `sub in s` for strings). -/
def seqSomewhereB (sub : List Char) : List Char → Bool
  | [] => seqStartB sub []
  | c :: t => seqStartB sub (c :: t) || seqSomewhereB sub t

/-- Model of Python `s.startswith(pre)`. -/
def strStarts (s pre : String) : Bool := seqStartB pre.data s.data

/-- Model of Python `sub in s` (substring containment). -/
def containsSeq (s sub : String) : Bool := seqSomewhereB sub.data s.data

/-- Characters stripped by Python `str.strip()` (ASCII whitespace). -/
def isPySpace (c : Char) : Bool :=
  c == ' ' || c == '\t' || c == '\n' || c == '\r' || c == '\x0b' || c == '\x0c'

/-- Model of Python `str.strip()`. -/
def pyStrip (s : String) : String :=
  String.mk (((s.data.dropWhile isPySpace).reverse.dropWhile isPySpace).reverse)

/-- Model of Python `str.lower()` (ASCII case folding suffices here). -/
def pyLower (s : String) : String := String.mk (s.data.map Char.toLower)

/-- Remainder of the char list after the first occurrence of `sub`, if any. -/
def afterSeq (sub : List Char) : List Char → Option (List Char)
  | [] => if seqStartB sub [] then some [] else Option.none
  | c :: t =>
    if seqStartB sub (c :: t) then some ((c :: t).drop sub.length)
    else afterSeq sub t

/-- Python values as they occur in JSON payloads and scraper results.
Dicts are insertion-ordered association lists with unique keys. -/
inductive PyVal where
  | none
  | bool (b : Bool)
  | num (n : Int)
  | str (s : String)
  | list (xs : List PyVal)
  | dict (kvs : List (String × PyVal))

/-- Python truthiness (`bool(obj)`) for the modelled values. -/
def pyTruthy : PyVal → Bool
  | .none => false
  | .bool b => b
  | .num n => n != 0
  | .str s => s != ""
  | .list xs => !xs.isEmpty
  | .dict kvs => !kvs.isEmpty

/-- Key lookup in a modelled dict (first matching key). -/
def pyLookup (kvs : List (String × PyVal)) (k : String) : Option PyVal :=
  match kvs with
  | [] => Option.none
  | (k2, v) :: rest => if k2 == k then some v else pyLookup rest k

/-- Model of `d.get(k)` (missing key yields Python `None`). -/
def pyGet (kvs : List (String × PyVal)) (k : String) : PyVal :=
  (pyLookup kvs k).getD .none

/-- Model of `d.get(k, default)`. -/
def pyGetD (kvs : List (String × PyVal)) (k : String) (d : PyVal) : PyVal :=
  (pyLookup kvs k).getD d

/-- Python type name of a modelled value (`type(v).__name__`). -/
def pyTypeName : PyVal → String
  | .none => "NoneType"
  | .bool _ => "bool"
  | .num _ => "int"
  | .str _ => "str"
  | .list _ => "list"
  | .dict _ => "dict"

/-- Model of Python `v == n` against an int literal (bools compare as 0/1). -/
def pyEqInt (v : PyVal) (n : Int) : Bool :=
  match v with
  | .num m => m == n
  | .bool b => (if b then (1 : Int) else 0) == n
  | _ => false

/-- Model of Python `v[k]` subscription; `.error` carries the exception
class name (`KeyError` for a missing dict key, `TypeError` otherwise). -/
def pyIndex (v : PyVal) (k : String) : Except String PyVal :=
  match v with
  | .dict kvs =>
    match pyLookup kvs k with
    | some x => .ok x
    | Option.none => .error "KeyError"
  | _ => .error "TypeError"

/-- Model of Python `k in v` for a string `k`: key membership for dicts,
element membership for lists, substring test for strings; a `TypeError`
(carried as `.error` with the Python message) for non-containers. -/
def pyInStr (k : String) : PyVal → Except String Bool
  | .dict kvs => .ok (kvs.any (fun kv => kv.1 == k))
  | .list xs =>
    .ok (xs.any (fun x => match x with | .str s => s == k | _ => false))
  | .str s => .ok (containsSeq s k)
  | .num _ => .error "argument of type 'int' is not iterable"
  | .bool _ => .error "argument of type 'bool' is not iterable"
  | .none => .error "argument of type 'NoneType' is not iterable"

/-- Model of Python `all(k in v for k in ks)` with short-circuiting. -/
def pyAllIn (ks : List String) (v : PyVal) : Except String Bool :=
  match ks with
  | [] => .ok true
  | k :: rest =>
    match pyInStr k v with
    | .error e => .error e
    | .ok true => pyAllIn rest v
    | .ok false => .ok false

/-- Python `str(v)` rendering used in f-strings; the container cases are
abstracted (no claim exercises them). -/
def pyStrRender : PyVal → String
  | .str s => s
  | .num n => toString n
  | .bool true => "True"
  | .bool false => "False"
  | .none => "None"
  | .list _ => "<list>"
  | .dict _ => "<dict>"

/- ===================== Link-discovery walker (utils.py) ===================== -/

/-- The priority field-name list of `extract_direct_links` (utils.py). -/
def possible_fields : List String :=
  ["direct_links", "files", "items", "url", "download_url",
   "direct_url", "links", "file_url", "download_link", "dl_link",
   "downloadUrl", "direct_link", "dl1", "dl2"]

/-- Model of the nested `is_valid_download_url` check in
`extract_direct_links` (utils.py): only a string can qualify; it must
start with `http://` or `https://`, its lowercasing must contain none of
the denied scheme substrings, and its stripped length must be at least 10. -/
def is_valid_download_url (v : PyVal) : Bool :=
  match v with
  | .str s =>
    (strStarts s "http://" || strStarts s "https://")
      && !(containsSeq (pyLower s) "javascript:"
            || containsSeq (pyLower s) "mailto:"
            || containsSeq (pyLower s) "tel:"
            || containsSeq (pyLower s) "data:")
      && decide (10 ≤ (pyStrip s).length)
  | _ => false

/-- Model of `links.add(url)` on the Python set, additionally recording the
insertion (first-discovery) order: append only when the URL is new. -/
def addLink (links : List String) (s : String) : List String :=
  if s ∈ links then links else links ++ [s]

/-- Model of the recursive `walk_data` in `extract_direct_links` (utils.py),
threading the accumulated set of links (kept in discovery order) through the
traversal.  The code guards recursion with `if depth > 15: return` and each
recursive call uses `depth + 1`; `fuel = 16 - depth` turns that guard into
structural recursion (the root call has depth 0, i.e. fuel 16). -/
def walkData : Nat → PyVal → List String → List String
  | 0, _, links => links
  | fuel + 1, obj, links =>
    if !pyTruthy obj then links
    else if is_valid_download_url obj then
      match obj with
      | .str s => addLink links s
      | _ => links
    else
      match obj with
      | .dict kvs =>
        let links1 := possible_fields.foldl (fun acc field =>
          match pyLookup kvs field with
          | some v => if pyTruthy v then walkData fuel v acc else acc
          | Option.none => acc) links
        kvs.foldl (fun acc kv =>
          if possible_fields.contains kv.1 then acc
          else walkData fuel kv.2 acc) links1
      | .list xs => xs.foldl (fun acc item => walkData fuel item acc) links
      | _ => links

/-- The link set discovered by `extract_direct_links` (utils.py), listed in
first-discovery order: the walk starts from `resolved_data.get("data",
resolved_data)` at depth 0 (fuel 16) with an empty set. -/
def extract_direct_links_discovered (resolved : List (String × PyVal)) : List String :=
  let data := (pyLookup resolved "data").getD (.dict resolved)
  walkData 16 data []

/-- The possible return values of `extract_direct_links` (utils.py).  The
code stores the discovered links in a Python `set` and returns
`list(links)`: the returned list enumerates each discovered link exactly
once, but in the set's hash-dependent iteration order, i.e. in an
unspecified permutation of the discovery order. -/
def extract_direct_links_outputs (resolved : List (String × PyVal)) (out : List String) : Prop :=
  List.Perm out (extract_direct_links_discovered resolved)

/- ===================== Timeout clamp and orchestrator (utils.py) ===================== -/

/-- `Config.MAX_TIMEOUT` (config.py); the environment default is 120. -/
def MAX_TIMEOUT : Int := 120

/-- `Config.MAX_BATCH_SIZE` (config.py); the environment default is 25. -/
def MAX_BATCH_SIZE : Nat := 25

/-- Model of `validate_timeout` (utils.py): `max(1, min(timeout, Config.MAX_TIMEOUT))`. -/
def validate_timeout (timeout : Int) : Int := max 1 (min timeout MAX_TIMEOUT)

/-- Model of `validate_retries` (utils.py): `max(0, min(retries, 10))`. -/
def validate_retries (retries : Int) : Int := max 0 (min retries 10)

/-- Model of the pydantic `ResolveResponse` (models.py); optional fields
default to Python `None`. -/
structure ResolveResponse where
  url : String
  status : String
  type : Option String := Option.none
  data : Option PyVal := Option.none
  message : Option String := Option.none
  processing_time : Option Rat := Option.none

/-- The observable behaviours of the underlying resolver inside
`resolve_single` (utils.py), as a function of the clamped timeout and
retries the resolver is constructed with: the URL can be unsupported, the
resolver can return a result, raise `asyncio.TimeoutError`, or raise any
other exception (whose message `str(exc)` is recorded). -/
inductive ResolverBehavior where
  | unsupported
  | success (result : PyVal)
  | timeoutErr
  | raises (msg : String)

/-- Model of `resolve_single` (utils.py).  `beh` gives the resolver's
behaviour for the clamped timeout/retries it is constructed with;
`elapsed` is the wall-clock time `time.time() - start_time` observed at
return.  Every branch of the code returns a typed `ResolveResponse`
carrying `processing_time` — the `except` handlers convert
`asyncio.TimeoutError` and any other exception into the `timeout` and
`error` outcomes, so the function (business-level) never propagates an
exception, which is why this model is total. -/
def resolve_single (beh : Int → Int → ResolverBehavior) (url : String)
    (timeout retries : Int) (elapsed : Rat) : ResolveResponse :=
  let t := validate_timeout timeout
  let r := validate_retries retries
  match beh t r with
  | .unsupported =>
    { url := url, status := "unsupported",
      message := some "URL domain is not supported",
      processing_time := some elapsed }
  | .success v =>
    { url := url, status := "success",
      type := some (pyTypeName v), data := some v,
      processing_time := some elapsed }
  | .timeoutErr =>
    { url := url, status := "timeout",
      message := some ("Request timed out after " ++ toString t ++ "s"),
      processing_time := some elapsed }
  | .raises msg =>
    { url := url, status := "error", message := some msg,
      processing_time := some elapsed }

/- ===================== Batch endpoint (endpoints/batch.py) ===================== -/

/-- Model of the pydantic `BatchResponse` (models.py). -/
structure BatchResponse where
  count : Nat
  results : List ResolveResponse
  total_processing_time : Rat
  success_count : Nat
  error_count : Nat

/-- `HTTPException`s raised by the batch endpoint before/around processing. -/
inductive HTTPErr where
  | badRequest (detail : String)
  | serverError (detail : String)

/-- Model of `resolve_with_semaphore` (endpoints/batch.py): runs
`resolve_single` for one URL and overwrites `processing_time` with the
wall-clock time around the call (`wall url`); the `except` branch that
converts an escaping exception into an `error` response is unreachable in
the model because `resolve_single` is total (it catches internally). -/
def resolve_with_semaphore (beh : String → Int → Int → ResolverBehavior)
    (wall : String → Rat) (timeout retries : Int) (url : String) : ResolveResponse :=
  let result := resolve_single (beh url) url timeout retries (wall url)
  { result with processing_time := some (wall url) }

/-- Model of `resolve_batch` (endpoints/batch.py).  `beh` gives each URL's
resolver behaviour and `wall` each URL's measured wall time; `total` is the
batch wall time.  `asyncio.gather` returns the child results positionally,
in the order of its argument tasks and independent of completion order
(tasks suspend and complete in any interleaving under the semaphore, but
each result is collected at its task's position), which the model renders
as a map over the input URLs in order. -/
def resolve_batch (beh : String → Int → Int → ResolverBehavior)
    (wall : String → Rat) (urls : List String) (timeout retries : Int)
    (total : Rat) : Except HTTPErr BatchResponse :=
  if urls.isEmpty then .error (.badRequest "No URLs provided")
  else if MAX_BATCH_SIZE < urls.length then
    .error (.badRequest "Too many URLs. Maximum allowed: 25")
  else
    let results := urls.map (resolve_with_semaphore beh wall timeout retries)
    let success_count := results.countP (fun r => r.status == "success")
    let error_count := results.length - success_count
    .ok { count := results.length, results := results,
          total_processing_time := total,
          success_count := success_count, error_count := error_count }

/- ===================== Terabox fallback (endpoints/terabox.py) ===================== -/

/-- A raw upstream HTTP interaction for the Terabox helper APIs: the
request can raise (network error / timeout, with `str(e)`), the body can
fail to parse as JSON, or it parses to a Python value. -/
inductive ApiRaw where
  | netErr (msg : String)
  | badJson (text : String)
  | json (v : PyVal)

/-- The dict returned by `try_api_1` / `try_api_2` (endpoints/terabox.py). -/
structure ApiResult where
  success : Bool
  api : String
  data : Option PyVal := Option.none
  error : Option String := Option.none

/-- Model of `try_api_1` (endpoints/terabox.py): non-JSON bodies and
request errors map to failure dicts; a parsed body passes validation iff
`all(k in data for k in ["file_name","sizebytes","thumb","link","direct_link"])`
— note Python `in` is substring / element containment for non-dict bodies,
and raises `TypeError` for non-container bodies, which the surrounding
`except` turns into a failure dict with `str(e)`. -/
def try_api_1 (r : ApiRaw) : ApiResult :=
  match r with
  | .netErr m => { success := false, api := "API 1", error := some m }
  | .badJson _ =>
    { success := false, api := "API 1", error := some "Invalid JSON from API 1" }
  | .json v =>
    match pyAllIn ["file_name", "sizebytes", "thumb", "link", "direct_link"] v with
    | .ok true => { success := true, api := "API 1", data := some v }
    | .ok false =>
      { success := false, api := "API 1", error := some "Missing required fields" }
    | .error m => { success := false, api := "API 1", error := some m }

/-- Model of `try_api_2` (endpoints/terabox.py).  The source writes the
bare names `false` / `true` (not Python's `False` / `True`) in its
malformed-JSON branch, its success branch and its missing-fields branch;
evaluating those dict literals raises `NameError`, which the enclosing
`except Exception as e` converts into
`{"success": False, "api": "API 2", "error": str(e)}`.  Consequently every
branch that would report success instead reports failure.  `data.get` on a
non-dict JSON body raises `AttributeError`, likewise caught. -/
def try_api_2 (r : ApiRaw) : ApiResult :=
  match r with
  | .netErr m => { success := false, api := "API 2", error := some m }
  | .badJson _ =>
    { success := false, api := "API 2", error := some "name 'false' is not defined" }
  | .json v =>
    match v with
    | .dict kvs =>
      if pyTruthy (pyGet kvs "success")
          && kvs.any (fun kv => kv.1 == "metadata")
          && kvs.any (fun kv => kv.1 == "links") then
        { success := false, api := "API 2", error := some "name 'true' is not defined" }
      else
        { success := false, api := "API 2", error := some "name 'false' is not defined" }
    | w =>
      { success := false, api := "API 2",
        error := some ("'" ++ pyTypeName w ++ "' object has no attribute 'get'") }

/-- Model of the pydantic `TeraboxResponse` (models.py); unset optional
fields keep Python `None`. -/
structure TeraboxResponse where
  status : String
  file_name : PyVal := .none
  thumb : PyVal := .none
  link : PyVal := .none
  direct_link : PyVal := .none
  sizebytes : PyVal := .none
  dl1 : PyVal := .none
  dl2 : PyVal := .none
  size : PyVal := .none
  message : Option String := Option.none

/-- Model of the result-processing tail of `terabox_endpoint`
(endpoints/terabox.py, after both `try_api_*` calls have been gathered).
An `.error` value models an exception escaping the endpoint (there is no
handler around this code): `api1_result["data"]` on a success dict without
`"data"` would raise `KeyError`, and `data.get(...)` raises
`AttributeError` when the validated payload is not a dict. -/
def terabox_process (r1 r2 : ApiResult) : Except String TeraboxResponse :=
  if r1.success then
    match r1.data with
    | some (.dict kvs) =>
      .ok { status := "success",
            file_name := pyGet kvs "file_name", thumb := pyGet kvs "thumb",
            link := pyGet kvs "link", direct_link := pyGet kvs "direct_link",
            sizebytes := pyGet kvs "sizebytes" }
    | some v => .error ("'" ++ pyTypeName v ++ "' object has no attribute 'get'")
    | Option.none => .error "KeyError: 'data'"
  else if r2.success then
    match r2.data with
    | some (.dict kvs) =>
      match pyGetD kvs "metadata" (.dict []), pyGetD kvs "links" (.dict []) with
      | .dict mkvs, .dict lkvs =>
        .ok { status := "success",
              file_name := pyGet mkvs "file_name", thumb := pyGet mkvs "thumb",
              size := pyGet mkvs "size", sizebytes := pyGet mkvs "sizebytes",
              dl1 := pyGet lkvs "dl1", dl2 := pyGet lkvs "dl2" }
      | .dict _, w => .error ("'" ++ pyTypeName w ++ "' object has no attribute 'get'")
      | w, _ => .error ("'" ++ pyTypeName w ++ "' object has no attribute 'get'")
    | some v => .error ("'" ++ pyTypeName v ++ "' object has no attribute 'get'")
    | Option.none => .error "KeyError: 'data'"
  else
    .ok { status := "error",
          message := some ("API1: " ++ r1.error.getD "Unknown"
            ++ " | API2: " ++ r2.error.getD "Unknown") }

/-- Model of the whole `/terabox` endpoint body (endpoints/terabox.py):
`asyncio.gather` queries both upstream APIs (their raw responses are
`raw1`, `raw2`), then the result is decided by the fixed priority order of
`terabox_process` — API 1 first, then API 2, else the concatenated error. -/
def terabox_endpoint (raw1 raw2 : ApiRaw) : Except String TeraboxResponse :=
  terabox_process (try_api_1 raw1) (try_api_2 raw2)

/- ===================== Universal bypass dispatch (endpoints/linkvertise.py) ===================== -/

/-- Model of `(urlparse(url).hostname or "").lower()`: the netloc is the
segment between `://` and the next `/`, `?` or `#`; userinfo before `@`
and a `:port` suffix are dropped; URLs without a netloc yield `""`. -/
def hostnameOf (url : String) : String :=
  match afterSeq "://".data url.data with
  | Option.none => ""
  | some rest =>
    let netloc := rest.takeWhile (fun c => !(c == '/' || c == '?' || c == '#'))
    let afterAt :=
      match afterSeq ['@'] netloc.reverse with
      | some revHost => revHost.reverse
      | Option.none => netloc
    let host := afterAt.takeWhile (fun c => !(c == ':'))
    String.mk (host.map Char.toLower)

/-- Model of `re.match(r"https?:\/\/.+\.gdtot\.\S+", url)` viewed as a
boolean: after an `http://` or `https://` scheme there must be at least
one non-newline character, then the literal `.gdtot.`, then at least one
non-whitespace character.  `gdtotScanStep` scans candidate positions for
the `.gdtot.` literal, never crossing a newline (the `.+` part cannot
match `\n`). -/
def gdtotScanStep : List Char → Bool → Bool
  | [], _ => false
  | c :: t, seen =>
    (seen && seqStartB ".gdtot.".data (c :: t)
      && (match (c :: t).drop 7 with
          | [] => false
          | d :: _ => !isPySpace d))
    || (if c == '\n' then false else gdtotScanStep t true)

/-- The anchored gdtot family pattern of `universal_bypass`. -/
def gdtotMatch (url : String) : Bool :=
  (strStarts url "http://" && gdtotScanStep (url.data.drop 7) false)
    || (strStarts url "https://" && gdtotScanStep (url.data.drop 8) false)

/-- The `service_map` of `universal_bypass` (endpoints/linkvertise.py):
hostname substring patterns paired with the name of the handler function
they dispatch to, in declaration order. -/
def service_map : List (String × String) :=
  [("yadi.sk", "yandex_disk"), ("disk.yandex.com", "yandex_disk"),
   ("mediafire.com", "mediafire"), ("uptobox.com", "uptobox"),
   ("osdn.net", "osdn"), ("github.com", "github"), ("hxfile.co", "hxfile"),
   ("1drv.ms", "onedrive"), ("pixeldrain.com", "pixeldrain"),
   ("antfiles.com", "antfiles"), ("streamtape.com", "streamtape"),
   ("racaty.net", "racaty"), ("1fichier.com", "fichier"),
   ("solidfiles.com", "solidfiles"), ("krakenfiles.com", "krakenfiles"),
   ("upload.ee", "uploadee"), ("akmfiles.com", "akmfiles"),
   ("linkbox.to", "linkbox"), ("shrdsk.me", "shrdsk"),
   ("letsupload.io", "letsupload"), ("zippyshare.com", "zippyshare"),
   ("mdisk.me", "mdisk"), ("wetransfer.com", "wetransfer"),
   ("we.tl", "wetransfer"), ("terabox.com", "terabox"),
   ("teraboxapp.com", "terabox"), ("4funbox.com", "terabox"),
   ("nephobox.com", "terabox"), ("mirrobox.com", "terabox"),
   ("momerybox.com", "terabox"), ("fembed.net", "fembed"),
   ("fembed.com", "fembed"), ("femax20.com", "fembed"),
   ("fcdn.stream", "fembed"), ("feurl.com", "fembed"),
   ("layarkacaxxi.icu", "fembed"), ("naniplay.com", "fembed"),
   ("naniplay.nanime.biz", "fembed"), ("naniplay.nanime.in", "fembed"),
   ("mm9842.com", "fembed"), ("sbembed.com", "sbembed"),
   ("watchsb.com", "sbembed"), ("streamsb.net", "sbembed"),
   ("sbplay.org", "sbembed")]

/-- First `service_map` entry whose pattern is a substring of the domain. -/
def findService (m : List (String × String)) (domain : String) : Option String :=
  match m with
  | [] => Option.none
  | (pat, name) :: rest =>
    if containsSeq domain pat then some name else findService rest domain

/-- Model of `universal_bypass` (endpoints/linkvertise.py).  `handlerOut`
stands for the network-dependent result of invoking the named per-service
bypass function on the URL.  When no rule matches, the code returns the
plain string `f"No handler found for URL: {url}"` — which, unlike every
handler-level failure, does not start with `"ERROR"`. -/
def universal_bypass (handlerOut : String → String → String) (url : String) : String :=
  let domain := hostnameOf url
  if gdtotMatch url then handlerOut "gdtot" url
  else if containsSeq domain "filepress" then handlerOut "filepress" url
  else
    match findService service_map domain with
    | some name => handlerOut name url
    | Option.none => "No handler found for URL: " ++ url

/-- The JSON body returned by `universal_endpoint` (endpoints/linkvertise.py). -/
structure BypassResponse where
  success : Bool
  bypassed_url : Option String := Option.none
  message : Option String := Option.none

/-- Model of the `/universal` endpoint body (endpoints/linkvertise.py),
with no `API_TOKEN` configured (the default): the bypass result is
reported as a failure only when it starts with `"ERROR"`, and as a success
carrying `bypassed_url` otherwise. -/
def universal_endpoint (handlerOut : String → String → String) (url : String) :
    BypassResponse :=
  let result := universal_bypass handlerOut url
  if strStarts result "ERROR" then { success := false, message := some result }
  else { success := true, bypassed_url := some result }

/- ===================== Uptobox waiting protocol (endpoints/linkvertise.py) ===================== -/

/-- One upstream fetch in the uptobox scraper: the request can raise (class
name recorded), `.json()` can raise, or a Python value is parsed. -/
inductive FetchResult where
  | netErr (excName : String)
  | jsonErr (excName : String)
  | ok (v : PyVal)

/-- Observable trace of one `uptobox(url)` call: its return value, the API
request URLs issued in order, and the `sleep` durations performed in order. -/
structure ScrapeTrace where
  result : PyVal
  requests : List String
  sleeps : List Int

/-- Model of `get_readable_time` (endpoints/linkvertise.py). -/
def get_readable_time (seconds : Int) : String :=
  let step := fun (acc : String × Int) (p : String × Int) =>
    if p.2 ≤ acc.2 then (acc.1 ++ toString (acc.2 / p.2) ++ p.1, acc.2 % p.2)
    else acc
  let r := [("d", (86400 : Int)), ("h", 3600), ("m", 60), ("s", 1)].foldl
    step ("", seconds)
  if r.1 == "" then "0s" else r.1

/-- The uptobox API link for a file code, with or without a configured
`UPTOBOX_TOKEN` (endpoints/linkvertise.py). -/
def uptoboxFileLink (tok : Option String) (fid : String) : String :=
  match tok with
  | some t => "https://uptobox.com/api/link?token=" ++ t ++ "&file_code=" ++ fid
  | Option.none => "https://uptobox.com/api/link?file_code=" ++ fid

/-- Result of `res["data"][k]` as performed by the uptobox scraper. -/
def uptoboxDataField (v : PyVal) (k : String) : Except String PyVal :=
  match pyIndex v "data" with
  | .error e => .error e
  | .ok d => pyIndex d k

/-- Model of `uptobox` (endpoints/linkvertise.py).  `extractId` stands for
`re.findall(r"\bhttps?://.*uptobox\.com/(\w+)", url)[0]` (`Option.none`
models the `IndexError` when the pattern finds nothing) and `fetch` for
`create_scraper().request("get", link).json()`.  In the `statusCode == 16`
branch the code sleeps 1 second, reads the waiting token and the
upstream-supplied `waiting` duration, sleeps exactly that duration with no
cap (a negative value makes `time.sleep` raise `ValueError`), and then
retries exactly once with `&waitingToken=` appended.  Every exception is
converted by the enclosing handler into `f"ERROR: {e.__class__.__name__}"`. -/
def uptobox (extractId : String → Option String) (tok : Option String)
    (fetch : String → FetchResult) (url : String) : ScrapeTrace :=
  match extractId url with
  | Option.none => { result := .str "ERROR: IndexError", requests := [], sleeps := [] }
  | some fid =>
    let fileLink := uptoboxFileLink tok fid
    match fetch fileLink with
    | .netErr n => { result := .str ("ERROR: " ++ n), requests := [fileLink], sleeps := [] }
    | .jsonErr n => { result := .str ("ERROR: " ++ n), requests := [fileLink], sleeps := [] }
    | .ok res =>
      match pyIndex res "statusCode" with
      | .error e =>
        { result := .str ("ERROR: " ++ e), requests := [fileLink], sleeps := [] }
      | .ok sc =>
        if pyEqInt sc 0 then
          match uptoboxDataField res "dlLink" with
          | .ok dl => { result := dl, requests := [fileLink], sleeps := [] }
          | .error e =>
            { result := .str ("ERROR: " ++ e), requests := [fileLink], sleeps := [] }
        else if pyEqInt sc 16 then
          match uptoboxDataField res "waitingToken" with
          | .error e =>
            { result := .str ("ERROR: " ++ e), requests := [fileLink], sleeps := [1] }
          | .ok wtok =>
            match uptoboxDataField res "waiting" with
            | .error e =>
              { result := .str ("ERROR: " ++ e), requests := [fileLink], sleeps := [1] }
            | .ok (.num w) =>
              if w < 0 then
                { result := .str "ERROR: ValueError", requests := [fileLink], sleeps := [1] }
              else
                let retryLink := fileLink ++ "&waitingToken=" ++ pyStrRender wtok
                let result2 : PyVal :=
                  match fetch retryLink with
                  | .netErr n => .str ("ERROR: " ++ n)
                  | .jsonErr n => .str ("ERROR: " ++ n)
                  | .ok res2 =>
                    match uptoboxDataField res2 "dlLink" with
                    | .ok dl => dl
                    | .error e => .str ("ERROR: " ++ e)
                { result := result2, requests := [fileLink, retryLink], sleeps := [1, w] }
            | .ok _ =>
              { result := .str "ERROR: TypeError", requests := [fileLink], sleeps := [1] }
        else if pyEqInt sc 39 then
          match uptoboxDataField res "waiting" with
          | .ok (.num w) =>
            { result := .str ("ERROR: Uptobox is being limited please wait "
                ++ get_readable_time w),
              requests := [fileLink], sleeps := [] }
          | .ok _ =>
            { result := .str "ERROR: TypeError", requests := [fileLink], sleeps := [] }
          | .error e =>
            { result := .str ("ERROR: " ++ e), requests := [fileLink], sleeps := [] }
        else
          match pyIndex res "message" with
          | .ok m =>
            { result := .str ("ERROR: " ++ pyStrRender m), requests := [fileLink], sleeps := [] }
          | .error e =>
            { result := .str ("ERROR: " ++ e), requests := [fileLink], sleeps := [] }

/- ===================== Helper lemmas ===================== -/

/-- An invariant preserved by every step of a `foldl` is preserved by the
whole fold. -/
theorem foldl_pres {β : Type} (P : List String → Prop)
    (f : List String → β → List String)
    (hf : ∀ acc b, P acc → P (f acc b)) :
    ∀ (l : List β) (acc : List String), P acc → P (List.foldl f acc l) := by
  intro l
  induction l with
  | nil => intro acc h; simpa using h
  | cons b t ih => intro acc h; simpa using ih (f acc b) (hf acc b h)

/-- Membership in the set after `addLink`. -/
theorem mem_addLink {links : List String} {s u : String} :
    u ∈ addLink links s ↔ u ∈ links ∨ u = s := by
  unfold addLink
  split
  · constructor
    · exact fun h => Or.inl h
    · rintro (h | rfl)
      · exact h
      · assumption
  · simp

/-- `addLink` keeps the discovery-order list duplicate-free. -/
theorem addLink_nodup {links : List String} {s : String} (h : links.Nodup) :
    (addLink links s).Nodup := by
  unfold addLink
  split
  · exact h
  · rw [List.nodup_append]
    exact ⟨h, List.nodup_singleton s, by
      intro a ha hb
      simp only [List.mem_singleton] at hb
      subst hb
      exact absurd ha (by assumption)⟩

/-- Any property preserved by `addLink` steps is preserved by the whole
walk, since `addLink` is the only way `walk_data` changes the link set. -/
theorem walkData_pres (P : List String → Prop)
    (hadd : ∀ links s, is_valid_download_url (.str s) = true →
      P links → P (addLink links s)) :
    ∀ (fuel : Nat) (obj : PyVal) (links : List String),
      P links → P (walkData fuel obj links) := by
  intro fuel
  induction fuel with
  | zero => intro obj links h; simpa [walkData] using h
  | succ n ih =>
    intro obj links h
    cases obj with
    | none => simpa [walkData] using h
    | bool b =>
      simp only [walkData]
      split
      · exact h
      split
      · exact h
      · exact h
    | num m =>
      simp only [walkData]
      split
      · exact h
      split
      · exact h
      · exact h
    | str s =>
      simp only [walkData]
      split
      · exact h
      split
      · exact hadd links s (by assumption) h
      · exact h
    | list xs =>
      simp only [walkData]
      split
      · exact h
      split
      · exact h
      · exact foldl_pres P _ (fun acc item hacc => ih item acc hacc) xs links h
    | dict kvs =>
      simp only [walkData]
      split
      · exact h
      split
      · exact h
      · refine foldl_pres P _ ?_ kvs _
          (foldl_pres P _ ?_ possible_fields links h)
        · intro acc kv hacc
          dsimp only
          split
          · exact hacc
          · exact ih kv.2 acc hacc
        · intro acc field hacc
          dsimp only
          split
          · split
            · exact ih _ acc hacc
            · exact hacc
          · exact hacc

/-- The combined walker invariant: the accumulated link set is
duplicate-free and contains only validated download URLs. -/
theorem walkData_inv (fuel : Nat) (obj : PyVal) (links : List String)
    (h : links.Nodup ∧ ∀ u ∈ links, is_valid_download_url (.str u) = true) :
    (walkData fuel obj links).Nodup ∧
      ∀ u ∈ walkData fuel obj links, is_valid_download_url (.str u) = true := by
  refine walkData_pres
    (fun l => l.Nodup ∧ ∀ u ∈ l, is_valid_download_url (.str u) = true)
    ?_ fuel obj links h
  intro l s hs hl
  refine ⟨addLink_nodup hl.1, ?_⟩
  intro u hu
  rcases mem_addLink.mp hu with h' | rfl
  · exact hl.2 u h'
  · exact hs

/-- The discovered link list is duplicate-free. -/
theorem discovered_nodup (p : List (String × PyVal)) :
    (extract_direct_links_discovered p).Nodup :=
  (walkData_inv 16 _ [] ⟨List.nodup_nil, by simp⟩).1

/-- Every discovered link passed `is_valid_download_url`. -/
theorem discovered_valid (p : List (String × PyVal)) :
    ∀ u ∈ extract_direct_links_discovered p,
      is_valid_download_url (.str u) = true :=
  (walkData_inv 16 _ [] ⟨List.nodup_nil, by simp⟩).2

/-- A positive `seqStartB` answer survives mapping both lists. -/
theorem seqStartB_map (f : Char → Char) :
    ∀ (sub l : List Char), seqStartB sub l = true →
      seqStartB (sub.map f) (l.map f) = true := by
  intro sub
  induction sub with
  | nil => intro l _; simp [seqStartB]
  | cons a as ih =>
    intro l h
    cases l with
    | nil => simp [seqStartB] at h
    | cons b bs =>
      simp only [seqStartB, Bool.and_eq_true, beq_iff_eq] at h
      simp only [List.map_cons, seqStartB, Bool.and_eq_true, beq_iff_eq]
      exact ⟨by rw [h.1], ih bs h.2⟩

/-- A positive `seqSomewhereB` answer survives mapping both lists. -/
theorem seqSomewhereB_map (f : Char → Char) :
    ∀ (sub l : List Char), seqSomewhereB sub l = true →
      seqSomewhereB (sub.map f) (l.map f) = true := by
  intro sub l
  induction l with
  | nil =>
    intro h
    simp only [seqSomewhereB] at h ⊢
    simpa using seqStartB_map f sub [] h
  | cons c t ih =>
    intro h
    simp only [seqSomewhereB, Bool.or_eq_true] at h
    rcases h with h | h
    · have := seqStartB_map f sub (c :: t) h
      simp only [List.map_cons] at this
      simp [seqSomewhereB, this]
    · simp [seqSomewhereB, ih h]

/-- If the lowercased string avoids a lowercase-stable substring, so does
the original string (models that the code's deny-list check on
`url_str.lower()` implies absence in `url_str` itself). -/
theorem containsSeq_of_lower {s d : String}
    (hstable : d.data.map Char.toLower = d.data)
    (h : containsSeq (pyLower s) d = false) : containsSeq s d = false := by
  cases hc : containsSeq s d with
  | false => rfl
  | true =>
    exfalso
    have hm := seqSomewhereB_map Char.toLower d.data s.data hc
    rw [hstable] at hm
    have : containsSeq (pyLower s) d = true := hm
    rw [h] at this
    exact Bool.false_ne_true this

/-- Unpacking the validator: a validated string starts with an `http(s)`
scheme, is neither empty nor whitespace-only, and contains none of the
denied scheme substrings. -/
theorem valid_url_spec (s : String)
    (h : is_valid_download_url (.str s) = true) :
    (strStarts s "http://" = true ∨ strStarts s "https://" = true) ∧
      s ≠ "" ∧ pyStrip s ≠ "" ∧
      containsSeq s "javascript:" = false ∧
      containsSeq s "mailto:" = false ∧
      containsSeq s "tel:" = false ∧
      containsSeq s "data:" = false := by
  simp only [is_valid_download_url, Bool.and_eq_true, Bool.or_eq_true,
    Bool.not_eq_true', Bool.or_eq_false_iff, decide_eq_true_eq] at h
  obtain ⟨⟨hscheme, ⟨⟨hjs, hmail⟩, htel⟩, hdata⟩, hlen⟩ := h
  have hstrip : pyStrip s ≠ "" := by
    intro he
    rw [he] at hlen
    simp at hlen
  have hne : s ≠ "" := by
    intro he
    subst he
    exact hstrip (by decide)
  refine ⟨hscheme, hne, hstrip, ?_, ?_, ?_, ?_⟩
  · exact containsSeq_of_lower (by decide) hjs
  · exact containsSeq_of_lower (by decide) hmail
  · exact containsSeq_of_lower (by decide) htel
  · exact containsSeq_of_lower (by decide) hdata

/- ===================== Concrete inputs used by witnesses and counterexamples ===================== -/

/-- A first accepted download URL. -/
def urlA : String := "https://example.com/f1.bin"

/-- A second accepted download URL. -/
def urlB : String := "https://example.com/f2.bin"

/-- A payload in which `urlA` occurs at two different keys (positions 1 and
3) and `urlB` in between; none of the keys is a priority field, so the
walker discovers `urlA` first, then `urlB`, then rejects the duplicate. -/
def payloadC1 : List (String × PyVal) :=
  [("a", .str urlA), ("b", .str urlB), ("c", .str urlA)]

/-- The discovery order on `payloadC1`. -/
theorem payloadC1_discovered :
    extract_direct_links_discovered payloadC1 = [urlA, urlB] := by decide

/- ===================== C1 ===================== -/

/-- C1, counterexample.  `payloadC1` contains the same URL at two different
positions, yet the claim fails on it: the code returns `list(links)` of a
Python `set`, so any permutation of the discovered links is a possible
return value, and the permutation `[urlB, urlA]` differs from the
first-discovery order `[urlA, urlB]`.  The dedup half of the claim holds;
the order half does not. -/
theorem extract_order_counterexample :
    (payloadC1.countP
      (fun kv => match kv.2 with | .str s => s == urlA | _ => false) = 2) ∧
    ¬ (∀ out, extract_direct_links_outputs payloadC1 out →
        (∀ u ∈ out, out.count u = 1) ∧
          out = extract_direct_links_discovered payloadC1) := by
  constructor
  · decide
  · intro hall
    have hperm : extract_direct_links_outputs payloadC1 [urlB, urlA] := by
      show List.Perm [urlB, urlA] (extract_direct_links_discovered payloadC1)
      rw [payloadC1_discovered]
      exact List.Perm.swap urlA urlB []
    have h2 := (hall [urlB, urlA] hperm).2
    rw [payloadC1_discovered] at h2
    exact absurd h2 (by decide)

/-- C1, amended.  For every payload, each URL in the returned sequence of
`extract_direct_links` occurs exactly once (in particular a URL occurring
at two different positions of the payload is returned exactly once), and
the returned sequence contains exactly the URLs accepted by the walker's
traversal (priority fields first, then remaining keys, depth-first); its
order, however, is an unspecified permutation of the discovery order, not
the discovery order itself. -/
theorem extract_direct_links_dedup (p : List (String × PyVal)) (out : List String)
    (h : extract_direct_links_outputs p out) :
    (∀ u ∈ out, out.count u = 1) ∧
      (∀ u, u ∈ out ↔ u ∈ extract_direct_links_discovered p) := by
  constructor
  · intro u hu
    have hn : out.Nodup := h.symm.nodup (discovered_nodup p)
    exact List.count_eq_one_of_mem hn hu
  · intro u
    exact h.mem_iff

/-- C1, witness for `extract_direct_links_dedup` at `payloadC1` and the
output `[urlB, urlA]`. -/
theorem extract_direct_links_dedup_witness :
    ([urlB, urlA] : List String).count urlB = 1 := by
  have hperm : extract_direct_links_outputs payloadC1 [urlB, urlA] := by
    show List.Perm [urlB, urlA] (extract_direct_links_discovered payloadC1)
    rw [payloadC1_discovered]
    exact List.Perm.swap urlA urlB []
  exact (extract_direct_links_dedup payloadC1 [urlB, urlA] hperm).1 urlB (by simp)

/- ===================== C7 ===================== -/

/-- C7.  Every string returned by `extract_direct_links` starts with
`http://` or `https://`, is neither empty nor whitespace-only, and
contains none of the denied scheme substrings (`javascript:`, `mailto:`,
`tel:`, `data:`). -/
theorem extract_direct_links_only_http (p : List (String × PyVal))
    (out : List String) (h : extract_direct_links_outputs p out) :
    ∀ u ∈ out,
      (strStarts u "http://" = true ∨ strStarts u "https://" = true) ∧
        u ≠ "" ∧ pyStrip u ≠ "" ∧
        containsSeq u "javascript:" = false ∧
        containsSeq u "mailto:" = false ∧
        containsSeq u "tel:" = false ∧
        containsSeq u "data:" = false := by
  intro u hu
  exact valid_url_spec u (discovered_valid p u (h.mem_iff.mp hu))

/-- C7, witness: the theorem applied to `payloadC1` and the identity
permutation of its discovered links, at the element `urlA`. -/
theorem extract_direct_links_only_http_witness :
    (strStarts urlA "http://" = true ∨ strStarts urlA "https://" = true) ∧
      urlA ≠ "" ∧ pyStrip urlA ≠ "" ∧
      containsSeq urlA "javascript:" = false ∧
      containsSeq urlA "mailto:" = false ∧
      containsSeq urlA "tel:" = false ∧
      containsSeq urlA "data:" = false :=
  extract_direct_links_only_http payloadC1
    (extract_direct_links_discovered payloadC1) (List.Perm.refl _) urlA
    (by rw [payloadC1_discovered]; simp)

/- ===================== C6 ===================== -/

/-- C6.  The server-side clamp maps every requested timeout into
`[1, MAX_TIMEOUT]`: with `MAX_TIMEOUT = 120`, requesting 99999 yields
exactly 120 and requesting 0 yields exactly 1; and `resolve_single`
applies the clamp regardless of the client-requested value (its result on
any timeout equals its result on the clamped timeout). -/
theorem validate_timeout_clamp :
    validate_timeout 99999 = 120 ∧ validate_timeout 0 = 1 ∧
      (∀ t : Int, 1 ≤ validate_timeout t ∧ validate_timeout t ≤ MAX_TIMEOUT) ∧
      (∀ (beh : Int → Int → ResolverBehavior) (url : String) (t r : Int) (e : Rat),
        resolve_single beh url t r e = resolve_single beh url (validate_timeout t) r e) := by
  refine ⟨by decide, by decide, ?_, ?_⟩
  · intro t
    unfold validate_timeout MAX_TIMEOUT
    omega
  · intro beh url t r e
    have hid : validate_timeout (validate_timeout t) = validate_timeout t := by
      unfold validate_timeout MAX_TIMEOUT
      omega
    simp only [resolve_single, hid]

/- ===================== C9 ===================== -/

/-- C9.  `resolve_single` never propagates a business-level failure as an
exception: whatever the underlying resolver does (unsupported URL,
timeout, or a raised exception), it returns a typed `ResolveResponse`
whose status matches the behaviour, whose message captures the raised
exception's text, and which always carries a `processing_time` value (the
model `resolve_single` is a total function into `ResolveResponse` exactly
because the code's `except` handlers convert every exception). -/
theorem resolve_single_no_raise (beh : Int → Int → ResolverBehavior)
    (url : String) (t r : Int) (e : Rat) :
    ((resolve_single beh url t r e).processing_time = some e) ∧
      ((resolve_single beh url t r e).url = url) ∧
      (match beh (validate_timeout t) (validate_retries r) with
        | .unsupported =>
          (resolve_single beh url t r e).status = "unsupported" ∧
            (resolve_single beh url t r e).message
              = some "URL domain is not supported"
        | .success _ => (resolve_single beh url t r e).status = "success"
        | .timeoutErr => (resolve_single beh url t r e).status = "timeout"
        | .raises msg =>
          (resolve_single beh url t r e).status = "error" ∧
            (resolve_single beh url t r e).message = some msg) := by
  simp only [resolve_single]
  cases beh (validate_timeout t) (validate_retries r) <;> simp

/- ===================== C4 ===================== -/

/-- C4.  Batch resolution is index-aligned with its input: whenever
`resolve_batch` returns a `BatchResponse`, mapping each result to its
`url` field reproduces the input URL sequence exactly (so
`results[i].url = urls[i]` for every index), independent of the per-URL
resolver behaviours and wall-clock timings, i.e. of completion order. -/
theorem resolve_batch_aligned (beh : String → Int → Int → ResolverBehavior)
    (wall : String → Rat) (urls : List String) (t r : Int) (total : Rat)
    (resp : BatchResponse)
    (h : resolve_batch beh wall urls t r total = .ok resp) :
    resp.results.map (fun x => x.url) = urls := by
  unfold resolve_batch at h
  split at h
  · simp at h
  · split at h
    · simp at h
    · simp only [Except.ok.injEq] at h
      subst h
      have hurl : ∀ u, (resolve_with_semaphore beh wall t r u).url = u := by
        intro u
        simp only [resolve_with_semaphore, resolve_single]
        cases beh u (validate_timeout t) (validate_retries r) <;> rfl
      rw [List.map_map]
      have hcomp : ((fun x => x.url) ∘ resolve_with_semaphore beh wall t r) = id := by
        funext u
        exact hurl u
      rw [hcomp, List.map_id]

/-- A fixed resolver behaviour: every URL is unsupported. -/
def behUnsup : String → Int → Int → ResolverBehavior := fun _ _ _ => .unsupported

/-- A fixed wall clock: every URL takes zero time. -/
def wallZero : String → Rat := fun _ => 0

/-- A concrete two-URL batch input. -/
def urlsC4 : List String := ["https://a.example/x", "https://b.example/y"]

/-- The batch response produced on `urlsC4` with `behUnsup`. -/
def respC4 : BatchResponse :=
  { count := 2,
    results :=
      [{ url := "https://a.example/x", status := "unsupported",
         message := some "URL domain is not supported", processing_time := some 0 },
       { url := "https://b.example/y", status := "unsupported",
         message := some "URL domain is not supported", processing_time := some 0 }],
    total_processing_time := 0, success_count := 0, error_count := 2 }

/-- C4, witness: the theorem applied to the concrete batch `urlsC4`. -/
theorem resolve_batch_aligned_witness :
    respC4.results.map (fun x => x.url) = urlsC4 :=
  resolve_batch_aligned behUnsup wallZero urlsC4 20 3 0 respC4 rfl

/- ===================== C5 ===================== -/

/-- C5.  Every `BatchResponse` produced by `resolve_batch` satisfies
`success_count + error_count = count`, and `count` is the number of
results returned. -/
theorem resolve_batch_counts (beh : String → Int → Int → ResolverBehavior)
    (wall : String → Rat) (urls : List String) (t r : Int) (total : Rat)
    (resp : BatchResponse)
    (h : resolve_batch beh wall urls t r total = .ok resp) :
    resp.success_count + resp.error_count = resp.count ∧
      resp.count = resp.results.length := by
  unfold resolve_batch at h
  split at h
  · simp at h
  · split at h
    · simp at h
    · simp only [Except.ok.injEq] at h
      subst h
      refine ⟨?_, rfl⟩
      have hle : (urls.map (resolve_with_semaphore beh wall t r)).countP
            (fun x => x.status == "success")
          ≤ (urls.map (resolve_with_semaphore beh wall t r)).length :=
        List.countP_le_length _
      simp only
      omega

/-- A fixed resolver behaviour: every URL resolves to an empty dict. -/
def behOkDict : String → Int → Int → ResolverBehavior :=
  fun _ _ _ => .success (.dict [])

/-- A concrete one-URL batch input. -/
def urlsC5 : List String := ["https://c.example/z"]

/-- The batch response produced on `urlsC5` with `behOkDict`. -/
def respC5 : BatchResponse :=
  { count := 1,
    results :=
      [{ url := "https://c.example/z", status := "success",
         type := some "dict", data := some (.dict []),
         processing_time := some 0 }],
    total_processing_time := 0, success_count := 1, error_count := 0 }

/-- C5, witness: the theorem applied to the concrete batch `urlsC5`. -/
theorem resolve_batch_counts_witness :
    respC5.success_count + respC5.error_count = respC5.count ∧
      respC5.count = respC5.results.length :=
  resolve_batch_counts behOkDict wallZero urlsC5 20 3 0 respC5 rfl

/- ===================== C2 ===================== -/

/-- `try_api_2` reports failure on every possible upstream response,
because each of its return branches either already carries
`success: False` or raises `NameError` on the undefined `true`/`false`
and is converted to a failure by the enclosing handler. -/
theorem tryApi2_never_succeeds (r : ApiRaw) : (try_api_2 r).success = false := by
  cases r with
  | netErr m => rfl
  | badJson t => rfl
  | json v =>
    cases v with
    | dict kvs =>
      simp only [try_api_2]
      split
      · rfl
      · rfl
    | none => rfl
    | bool b => rfl
    | num n => rfl
    | str s => rfl
    | list xs => rfl

/-- A JSON body that is a bare string containing all five required key
names as substrings: Python `k in data` is substring containment on
strings, so this passes API 1's field check. -/
def rawStr1 : ApiRaw := .json (.str "file_name sizebytes thumb link direct_link")

/-- C2, counterexample.  `rawStr1` passes API 1's validation
(`all(k in data for k in [...])` succeeds on a bare string by substring
containment), yet the endpoint's result is not API 1's mapped success:
`data.get("file_name")` raises an uncaught `AttributeError`, so the
endpoint produces neither a success nor the concatenated-reasons error. -/
theorem terabox_priority_counterexample :
    (try_api_1 rawStr1).success = true ∧
      terabox_endpoint rawStr1 (.badJson "not json")
        = .error "'str' object has no attribute 'get'" := by
  constructor
  · rfl
  · rfl

/-- C2, amended.  Both upstream APIs are queried and the result is decided
by fixed priority, not arrival order: if API 1's response passes its field
validation *and its payload is a JSON object*, the endpoint returns
API 1's mapped success regardless of API 2's response; if neither response
passes validation, the result is an error whose message concatenates
API 1's and API 2's individual failure reasons.  (If API 1's validated
payload is not a JSON object the endpoint instead raises an uncaught
`AttributeError`, see the counterexample.) -/
theorem terabox_priority (raw1 raw2 : ApiRaw) :
    (∀ kvs, try_api_1 raw1
        = { success := true, api := "API 1", data := some (.dict kvs) } →
      terabox_endpoint raw1 raw2 =
        .ok { status := "success",
              file_name := pyGet kvs "file_name", thumb := pyGet kvs "thumb",
              link := pyGet kvs "link", direct_link := pyGet kvs "direct_link",
              sizebytes := pyGet kvs "sizebytes" }) ∧
    ((try_api_1 raw1).success = false →
      terabox_endpoint raw1 raw2 =
        .ok { status := "error",
              message := some ("API1: " ++ (try_api_1 raw1).error.getD "Unknown"
                ++ " | API2: " ++ (try_api_2 raw2).error.getD "Unknown") }) := by
  constructor
  · intro kvs h1
    unfold terabox_endpoint terabox_process
    rw [h1]
    rfl
  · intro h1
    unfold terabox_endpoint terabox_process
    rw [if_neg (by rw [h1]; exact Bool.false_ne_true),
      if_neg (by rw [tryApi2_never_succeeds raw2]; exact Bool.false_ne_true)]

/-- A well-formed API 1 payload carrying all five required fields. -/
def goodApi1Data : List (String × PyVal) :=
  [("file_name", .str "f.bin"), ("sizebytes", .num 123),
   ("thumb", .str "https://terabox.example/t.jpg"),
   ("link", .str "https://terabox.example/l"),
   ("direct_link", .str "https://terabox.example/d")]

/-- A raw API 1 response whose JSON body is `goodApi1Data`. -/
def rawGood1 : ApiRaw := .json (.dict goodApi1Data)

/-- C2, witness: the theorem applied to a well-formed API 1 response and a
malformed API 2 response. -/
theorem terabox_priority_witness :
    terabox_endpoint rawGood1 (.badJson "x")
      = .ok { status := "success",
              file_name := pyGet goodApi1Data "file_name",
              thumb := pyGet goodApi1Data "thumb",
              link := pyGet goodApi1Data "link",
              direct_link := pyGet goodApi1Data "direct_link",
              sizebytes := pyGet goodApi1Data "sizebytes" } :=
  (terabox_priority rawGood1 (.badJson "x")).1 goodApi1Data rfl

/- ===================== C10 ===================== -/

/-- C10.  `try_api_2` returns a failure (`success = false`) for every
possible upstream response — its success and malformed-JSON branches
evaluate the undefined names `true`/`false`, raising `NameError`, which
the surrounding handler converts into a failure dict — and consequently
the `/terabox` endpoint can only ever report success using API 1's
response: whenever the endpoint returns a body with status `"success"`,
API 1's validation succeeded. -/
theorem try_api_2_always_fails :
    (∀ r : ApiRaw, (try_api_2 r).success = false) ∧
      (∀ (raw1 raw2 : ApiRaw) (resp : TeraboxResponse),
        terabox_endpoint raw1 raw2 = .ok resp → resp.status = "success" →
        (try_api_1 raw1).success = true) := by
  constructor
  · exact tryApi2_never_succeeds
  · intro raw1 raw2 resp hok hs
    cases hb : (try_api_1 raw1).success with
    | true => rfl
    | false =>
      exfalso
      unfold terabox_endpoint terabox_process at hok
      rw [if_neg (by rw [hb]; exact Bool.false_ne_true),
        if_neg (by rw [tryApi2_never_succeeds raw2]; exact Bool.false_ne_true)] at hok
      simp only [Except.ok.injEq] at hok
      subst hok
      simp at hs

/-- C10, witness: the endpoint part applied at a concrete success. -/
theorem try_api_2_always_fails_witness :
    (try_api_1 rawGood1).success = true :=
  try_api_2_always_fails.2 rawGood1 (.badJson "x")
    { status := "success",
      file_name := pyGet goodApi1Data "file_name",
      thumb := pyGet goodApi1Data "thumb",
      link := pyGet goodApi1Data "link",
      direct_link := pyGet goodApi1Data "direct_link",
      sizebytes := pyGet goodApi1Data "sizebytes" } rfl rfl

/- ===================== C3 ===================== -/

/-- C3.  On a URL whose hostname matches no dispatch rule, the code does
the opposite of the claim: `universal_bypass` returns the plain string
`"No handler found for URL: ..."`, which does not start with `"ERROR"`,
so `universal_endpoint` surfaces it as a *success* body
(`success = true` with the message in `bypassed_url`), not as an
Unsupported client-side error. -/
theorem universal_no_handler_reported_as_success :
    universal_bypass (fun _ _ => "unused") "https://example.com/file.zip"
      = "No handler found for URL: https://example.com/file.zip" ∧
    universal_endpoint (fun _ _ => "unused") "https://example.com/file.zip"
      = { success := true,
          bypassed_url :=
            some "No handler found for URL: https://example.com/file.zip" } :=
  ⟨rfl, rfl⟩

/- ===================== C8 ===================== -/

/-- Trace of the `statusCode == 16` waiting branch: when the first fetch
answers with waiting token `tokStr` and waiting duration `w ≥ 0`, the
scraper sleeps 1 second and then exactly the upstream-supplied `w`
seconds, and issues exactly one retry request with `&waitingToken=`
appended — whatever the retry returns. -/
theorem uptobox16_trace (extractId : String → Option String)
    (tok : Option String) (fetch : String → FetchResult)
    (url fid tokStr : String) (w : Int)
    (hid : extractId url = some fid)
    (hfetch : fetch (uptoboxFileLink tok fid)
      = .ok (.dict [("statusCode", .num 16),
                    ("data", .dict [("waitingToken", .str tokStr),
                                    ("waiting", .num w)])]))
    (hw : 0 ≤ w) :
    (uptobox extractId tok fetch url).sleeps = [1, w] ∧
      (uptobox extractId tok fetch url).requests
        = [uptoboxFileLink tok fid,
           uptoboxFileLink tok fid ++ "&waitingToken=" ++ tokStr] := by
  have hneg : ¬ (w < 0) := by omega
  unfold uptobox
  rw [hid]
  simp only
  rw [hfetch]
  simp [pyIndex, pyLookup, uptoboxDataField, pyEqInt, pyStrRender, hneg]

/-- A fetch oracle answering every request with a `statusCode == 16`
waiting response carrying the upstream-chosen duration `w`. -/
def fetch16 (w : Int) : String → FetchResult :=
  fun _ => .ok (.dict [("statusCode", .num 16),
                       ("data", .dict [("waitingToken", .str "tok"),
                                       ("waiting", .num w)])])

/-- C8, counterexample.  No fixed constant bounds the scraper's sleeping:
for every candidate bound `C` the upstream can answer with
`waiting = max C 0 + 1` and the scraper's total sleep `1 + (max C 0 + 1)`
exceeds `C` — the code executes `sleep(wait_time)` on the raw
upstream-supplied value with no cap. -/
theorem uptobox_sleep_unbounded :
    ¬ ∃ C : Int, ∀ w : Int, 0 ≤ w →
      ((uptobox (fun _ => some "abc") Option.none (fetch16 w)
          "https://uptobox.com/abc").sleeps).sum ≤ C := by
  rintro ⟨C, hC⟩
  have h0 : (0 : Int) ≤ max C 0 + 1 := by omega
  have hs := (uptobox16_trace (fun _ => some "abc") Option.none
      (fetch16 (max C 0 + 1)) "https://uptobox.com/abc" "abc" "tok"
      (max C 0 + 1) rfl rfl h0).1
  have h := hC (max C 0 + 1) h0
  rw [hs] at h
  simp only [List.sum_cons, List.sum_nil] at h
  omega

/-- C8, amended.  On a `statusCode == 16` response the scraper sleeps a
fixed 1 second plus *exactly the upstream-supplied* `waiting` duration —
with no bound independent of the upstream value (see the counterexample)
— and then retries exactly once, with the waiting token appended to the
API link: the request log is exactly the initial request followed by the
single retry. -/
theorem uptobox_waiting_protocol (extractId : String → Option String)
    (tok : Option String) (fetch : String → FetchResult)
    (url fid tokStr : String) (w : Int)
    (hid : extractId url = some fid)
    (hfetch : fetch (uptoboxFileLink tok fid)
      = .ok (.dict [("statusCode", .num 16),
                    ("data", .dict [("waitingToken", .str tokStr),
                                    ("waiting", .num w)])]))
    (hw : 0 ≤ w) :
    (uptobox extractId tok fetch url).sleeps = [1, w] ∧
      (uptobox extractId tok fetch url).requests
        = [uptoboxFileLink tok fid,
           uptoboxFileLink tok fid ++ "&waitingToken=" ++ tokStr] :=
  uptobox16_trace extractId tok fetch url fid tokStr w hid hfetch hw

/-- C8, witness: the amended theorem applied to a concrete waiting
response with `waiting = 5`. -/
theorem uptobox_waiting_protocol_witness :
    (uptobox (fun _ => some "abc") Option.none (fetch16 5)
        "https://uptobox.com/abc").sleeps = [1, 5] ∧
      (uptobox (fun _ => some "abc") Option.none (fetch16 5)
          "https://uptobox.com/abc").requests
        = [uptoboxFileLink Option.none "abc",
           uptoboxFileLink Option.none "abc" ++ "&waitingToken=" ++ "tok"] :=
  uptobox_waiting_protocol (fun _ => some "abc") Option.none (fetch16 5)
    "https://uptobox.com/abc" "abc" "tok" 5 rfl rfl (by decide)
